import Mathlib

/-!
Verification development for the face-verification core (`face_utils.py`):
a cosine-distance matcher with per-model thresholds, a validity-checked
cache of reference embeddings, and the verify orchestrator.

Modelling conventions:
* float vectors are idealized as lists of real numbers (`Emb`);
* the external extraction capability (`DeepFace.represent`) is an oracle
  parameter `Oracle`; a raised exception is `XResult.err` carrying the
  exception text, a normal return is `XResult.ok` with the embedding list;
* the filesystem is explicit data: a `Folder` (an exists-and-is-directory
  flag plus directory entries, already in sorted iteration order) and a
  file-existence predicate for the probe path;
* `Path.resolve()` is modelled as the identity on the joined path string;
* the in-memory module cache is an association list threaded through the
  functions; the on-disk pickle cache of the user folder is an
  `Option DiskBlob` (absent-or-unreadable is `none`);
* each store function also returns the list of extraction-adapter calls
  it performed (image path, backend) — pure instrumentation mirroring the
  spec's "instrumenting the extraction adapter call count".
-/

namespace FaceAuth

/-- An embedding vector (numpy float array idealized over the reals). -/
abbrev Emb := List ℝ

/-- Outcome of one call to the external extraction capability:
a list of embeddings, or a raised exception with its message text. -/
inductive XResult where
  | ok (embs : List Emb)
  | err (msg : String)

/-- The external extraction capability: image path, model name, detector
backend, align flag, enforce-detection flag. -/
abbrev Oracle := String → String → String → Bool → Bool → XResult

/-- One directory entry of a user folder: file name, lowercased extension
(Python `path.suffix.lower()`), and modification-time fingerprint. -/
structure FileEntry where
  name : String
  suffixLower : String
  mtime : ℚ
deriving DecidableEq

/-- A user folder: its resolved path, whether it exists and is a directory,
and its entries in sorted iteration order (Python `sorted(iterdir())`). -/
structure Folder where
  path : String
  isDir : Bool
  entries : List FileEntry
deriving DecidableEq

/-- Supported image extensions (source line 18). -/
def IMAGE_EXTENSIONS : List String := [".jpg", ".jpeg", ".png", ".bmp", ".webp"]

/-- Detector backends to try in order (source line 21). -/
def DETECTOR_BACKENDS : List String := ["retinaface", "mtcnn", "opencv"]

/-- Default verification model (source line 24). -/
def VERIFICATION_MODEL : String := "ArcFace"

/-- Per-model cosine-distance thresholds (source line 28): 0.68, 0.40, 0.40,
written as exact fractions. -/
def DISTANCE_THRESHOLDS : List (String × ℚ) :=
  [("ArcFace", 68/100), ("Facenet", 40/100), ("VGG-Face", 40/100)]

/-- Cache filename inside each user folder (source line 31). -/
def EMBEDDINGS_CACHE_FILE : String := ".face_embeddings.pkl"

/-- Python `str.strip()` followed by `str.lower()` on a char list. -/
def strip_lower (l : List Char) : List Char :=
  (((l.dropWhile Char.isWhitespace).reverse.dropWhile Char.isWhitespace).reverse).map Char.toLower

/-- `get_user_folder` (source lines 34-38): `base_dir / username.strip().lower()`,
resolved; `resolve()` is modelled as the identity on the joined path. -/
def get_user_folder (username : String) (base_dir : String) : String :=
  base_dir ++ "/" ++ String.mk (strip_lower username.data)

/-- Full path of a directory entry. -/
def fullPath (fo : Folder) (f : FileEntry) : String := fo.path ++ "/" ++ f.name

/-- `_get_reference_image_paths` (source lines 41-47): entries whose lowercased
extension is a supported image extension and whose name is not the cache file;
empty when the folder does not exist or is not a directory. -/
def get_reference_image_paths (fo : Folder) : List FileEntry :=
  if fo.isDir then
    fo.entries.filter
      (fun f => IMAGE_EXTENSIONS.contains f.suffixLower && (f.name != EMBEDDINGS_CACHE_FILE))
  else []

/-- Substring test on char lists (Python `in` on strings). -/
def hasSub (needle : List Char) : List Char → Bool
  | [] => needle.isEmpty
  | c :: rest => needle.isPrefixOf (c :: rest) || hasSub needle rest

/-- `_is_no_face_error` (source lines 50-52): lowercase the exception text and
look for the no-face phrases. -/
def is_no_face_error (e : String) : Bool :=
  let err := e.data.map Char.toLower
  hasSub "face could not be detected".data err || hasSub "no face".data err ||
    (hasSub "detected".data err && hasSub "no ".data err)

/-- `np.dot` on flattened vectors. -/
def dot (a b : List ℝ) : ℝ := (List.zipWith (fun x y => x * y) a b).sum

/-- `np.linalg.norm`: Euclidean norm. -/
noncomputable def norm2 (a : List ℝ) : ℝ := Real.sqrt (dot a a)

open Classical

/-- `_cosine_distance` (source lines 55-62): `1 - a.b/(|a||b|)`, and `1.0`
when the norm product is zero. -/
noncomputable def cosine_distance (a b : List ℝ) : ℝ :=
  if norm2 a * norm2 b = 0 then 1 else 1 - dot a b / (norm2 a * norm2 b)

/-- `_get_threshold` (source lines 65-66): table lookup with the `Facenet`
entry (default `0.4`) as fallback. -/
def get_threshold (model_name : String) : ℚ :=
  (List.lookup model_name DISTANCE_THRESHOLDS).getD
    ((List.lookup "Facenet" DISTANCE_THRESHOLDS).getD (4/10))

/-- Backend-fallback loop of `_build_ref_embeddings` (source lines 100-107)
for one image: first non-raising backend ends the iteration and its embedding
list is collected; a raising backend moves to the next. Also returns the
extraction calls made, as (image, backend) pairs. -/
def build_one (oracle : Oracle) (model imagePath : String) :
    List String → List Emb × List (String × String)
  | [] => ([], [])
  | b :: bs =>
    match oracle imagePath model b true true with
    | .ok embs => (embs, [(imagePath, b)])
    | .err _ =>
      let r := build_one oracle model imagePath bs
      (r.1, (imagePath, b) :: r.2)

/-- Reference list with per-embedding source path, one group per image
(source lines 97-108 outer loop). -/
def build_ref_list (oracle : Oracle) (fo : Folder) (model : String)
    (backends : List String) : List FileEntry → List (Emb × String) × List (String × String)
  | [] => ([], [])
  | p :: ps =>
    let one := build_one oracle model (fullPath fo p) backends
    let rest := build_ref_list oracle fo model backends ps
    (one.1.map (fun e => (e, fullPath fo p)) ++ rest.1, one.2 ++ rest.2)

/-- `_build_ref_embeddings` (source lines 91-108). -/
def build_ref_embeddings (oracle : Oracle) (fo : Folder) (model : String)
    (backends : List String) : List (Emb × String) × List (String × String) :=
  build_ref_list oracle fo model backends (get_reference_image_paths fo)

/-- `_folder_mtimes` (source lines 119-127): path → mtime for every
reference image file (`stat` is modelled as always succeeding). -/
def folder_mtimes (fo : Folder) : List (String × ℚ) :=
  (get_reference_image_paths fo).map (fun f => (fullPath fo f, f.mtime))

/-- Python `==` on two path→mtime dicts: same key set, same values. -/
def dictEq (a b : List (String × ℚ)) : Bool :=
  (a.all fun kv => decide (List.lookup kv.1 b = some kv.2)) &&
    (b.all fun kv => decide (List.lookup kv.1 a = some kv.2))

/-- One in-memory cache entry (source line 115 comment). -/
structure CacheEntry where
  embeddings : List (Emb × String)
  mtimes : List (String × ℚ)

/-- The module-level `_embedding_cache`, keyed by (folder path, model). -/
abbrev MemCache := List ((String × String) × CacheEntry)

/-- The pickled disk cache blob of one user folder (source lines 184-191). -/
structure DiskBlob where
  model_name : String
  mtimes : List (String × ℚ)
  embeddings : List (Emb × String)

/-- Disk-cache half of `_load_cached_embeddings` (source lines 152-166):
accept the blob only if model name and mtime snapshot match and the stored
embedding list is non-empty; on acceptance also populate the memory cache. -/
def load_disk_cache (mem : MemCache) (disk : Option DiskBlob) (foPath model : String)
    (current : List (String × ℚ)) (use_disk_cache : Bool) :
    Option (List (Emb × String)) × MemCache :=
  if use_disk_cache then
    match disk with
    | some data =>
      if (data.model_name == model) && dictEq data.mtimes current then
        if !data.embeddings.isEmpty then
          (some data.embeddings, ((foPath, model), CacheEntry.mk data.embeddings current) :: mem)
        else (none, mem)
      else (none, mem)
    | none => (none, mem)
  else (none, mem)

/-- `_load_cached_embeddings` (source lines 130-166): return the cached
embeddings when valid (same files, same mtimes, non-empty), else `none`. -/
def load_cached_embeddings (mem : MemCache) (disk : Option DiskBlob) (fo : Folder)
    (model : String) (use_disk_cache : Bool) :
    Option (List (Emb × String)) × MemCache :=
  let current := folder_mtimes fo
  if current.isEmpty then (none, mem)
  else
    match List.lookup (fo.path, model) mem with
    | some entry =>
      if dictEq entry.mtimes current && !entry.embeddings.isEmpty then
        (some entry.embeddings, mem)
      else load_disk_cache mem disk fo.path model current use_disk_cache
    | none => load_disk_cache mem disk fo.path model current use_disk_cache

/-- `_save_cached_embeddings` (source lines 169-193): store in memory
unconditionally; write the disk blob only when enabled and non-empty. -/
def save_cached_embeddings (mem : MemCache) (disk : Option DiskBlob) (fo : Folder)
    (model : String) (embeddings : List (Emb × String)) (use_disk_cache : Bool) :
    MemCache × Option DiskBlob :=
  let current := folder_mtimes fo
  let memNew := ((fo.path, model), CacheEntry.mk embeddings current) :: mem
  let diskNew :=
    if use_disk_cache && !embeddings.isEmpty then
      some (DiskBlob.mk model current embeddings)
    else disk
  (memNew, diskNew)

/-- `get_ref_embeddings` (source lines 196-212): serve the cache when the
loader accepts it (no extraction calls), otherwise rebuild and save.
Returns (embeddings, memory cache, disk blob, extraction calls). -/
def get_ref_embeddings (oracle : Oracle) (mem : MemCache) (disk : Option DiskBlob)
    (fo : Folder) (model_name : Option String) (backends : List String)
    (use_disk_cache : Bool) :
    List (Emb × String) × MemCache × Option DiskBlob × List (String × String) :=
  let model := model_name.getD VERIFICATION_MODEL
  let L := load_cached_embeddings mem disk fo model use_disk_cache
  match L.1 with
  | some cached => (cached, L.2, disk, [])
  | none =>
    let B := build_ref_embeddings oracle fo model backends
    let S := save_cached_embeddings L.2 disk fo model B.1 use_disk_cache
    (B.1, S.1, S.2, B.2)

/-- A verification message: one of the fixed strings of the source, or the
verified message carrying the accepted distance (rendered by the source as
a three-decimal format of that distance). -/
inductive Msg where
  | fixed (s : String)
  | verified (dist : ℝ)

/-- The fixed no-face message (source lines 239-242). -/
def noFaceText : String :=
  "No face detected in the captured image. Try facing the camera more directly, or ensure good lighting."

/-- The fixed no-references message (source lines 237 and 253). -/
def noRefsText : String :=
  "No reference face images found for this user. Add photos to the user folder."

/-- Probe-extraction outcome of the backend loop in `verify_image_file`. -/
inductive ProbeOutcome where
  | found (e : Emb)
  | noFaceAbort
  | exhausted

/-- Probe backend loop (source lines 256-269): first non-empty success wins
and its first embedding is kept; a classified no-face failure aborts the loop;
any other failure, or an empty success, moves to the next backend. -/
def probe_loop (oracle : Oracle) (image model : String) (align enforce : Bool) :
    List String → ProbeOutcome
  | [] => .exhausted
  | b :: bs =>
    match oracle image model b align enforce with
    | .ok [] => probe_loop oracle image model align enforce bs
    | .ok (e :: _) => .found e
    | .err msg =>
      if is_no_face_error msg then .noFaceAbort
      else probe_loop oracle image model align enforce bs

/-- The reference-embedding source used by `verify_image_file` (source lines
247-250): the cached store when `use_embedding_cache`, else a direct build. -/
def ref_source (oracle : Oracle) (mem : MemCache) (disk : Option DiskBlob)
    (fo : Folder) (model : String) (backends : List String) (use_embedding_cache : Bool) :
    List (Emb × String) × MemCache × Option DiskBlob × List (String × String) :=
  if use_embedding_cache then get_ref_embeddings oracle mem disk fo (some model) backends true
  else ((build_ref_embeddings oracle fo model backends).1, mem, disk,
    (build_ref_embeddings oracle fo model backends).2)

/-- Reference scan of `verify_image_file` (source lines 272-277): first
reference within threshold wins. -/
noncomputable def scan (live : Emb) (threshold : ℝ) :
    List (Emb × String) → Bool × Msg
  | [] => (false, .fixed "Face does not match the registered user.")
  | r :: rest =>
    if cosine_distance live r.1 ≤ threshold then
      (true, .verified (cosine_distance live r.1))
    else scan live threshold rest

/-- `verify_image_file` (source lines 215-277). Returns the decision and
message, the updated memory cache and disk blob, and the reference-extraction
calls performed. -/
noncomputable def verify_image_file (oracle : Oracle) (fileExists : String → Bool)
    (mem : MemCache) (disk : Option DiskBlob) (image_path : String) (fo : Folder)
    (model_name : Option String) (backends : List String)
    (enforce_detection align use_embedding_cache : Bool) :
    (Bool × Msg) × MemCache × Option DiskBlob × List (String × String) :=
  if fileExists image_path = false then
    ((false, .fixed "Image file not found."), mem, disk, [])
  else if get_reference_image_paths fo = [] then
    ((false, .fixed noRefsText), mem, disk, [])
  else
    let model := model_name.getD VERIFICATION_MODEL
    let threshold := get_threshold model
    let R := ref_source oracle mem disk fo model backends use_embedding_cache
    if R.1.isEmpty then ((false, .fixed noRefsText), R.2.1, R.2.2.1, R.2.2.2)
    else
      match probe_loop oracle image_path model align enforce_detection backends with
      | .found e => (scan e ((threshold : ℚ) : ℝ) R.1, R.2.1, R.2.2.1, R.2.2.2)
      | _ => ((false, .fixed noFaceText), R.2.1, R.2.2.1, R.2.2.2)

end FaceAuth

namespace FaceAuth

/-! ### Matcher lemmas -/

theorem dot_comm (a b : List ℝ) : dot a b = dot b a := by
  induction a generalizing b with
  | nil => cases b <;> simp [dot]
  | cons x xs ih =>
    cases b with
    | nil => simp [dot]
    | cons y ys =>
      simp only [dot, List.zipWith, List.sum_cons] at ih ⊢
      rw [mul_comm, ih]

theorem dot_self_nonneg (a : List ℝ) : 0 ≤ dot a a := by
  induction a with
  | nil => simp [dot]
  | cons x xs ih =>
    simp only [dot, List.zipWith, List.sum_cons] at ih ⊢
    nlinarith [mul_self_nonneg x]

theorem dot_cons (x y : ℝ) (xs ys : List ℝ) :
    dot (x :: xs) (y :: ys) = x * y + dot xs ys := by
  simp [dot]

theorem dot_self_pos (a : List ℝ) (h : ∃ x ∈ a, x ≠ 0) : 0 < dot a a := by
  induction a with
  | nil => simp at h
  | cons x xs ih =>
    rw [dot_cons]
    rcases h with ⟨y, hy, hy0⟩
    rcases List.mem_cons.1 hy with rfl | hmem
    · nlinarith [dot_self_nonneg xs, mul_self_pos.mpr hy0]
    · have := ih ⟨y, hmem, hy0⟩
      nlinarith [mul_self_nonneg x]

theorem dot_sq_le (a b : List ℝ) : dot a b ^ 2 ≤ dot a a * dot b b := by
  induction a generalizing b with
  | nil => simp [dot]
  | cons x xs ih =>
    cases b with
    | nil => simp [dot]
    | cons y ys =>
      have hA := dot_self_nonneg xs
      have hB := dot_self_nonneg ys
      have hd := ih ys
      rw [dot_cons, dot_cons, dot_cons]
      rcases eq_or_lt_of_le hB with hB0 | hBpos
      · have hd0 : dot xs ys = 0 := by nlinarith [sq_nonneg (dot xs ys)]
        rw [hd0, ← hB0]
        nlinarith [mul_nonneg hA (mul_self_nonneg y)]
      · nlinarith [sq_nonneg (x * dot ys ys - y * dot xs ys),
          mul_nonneg (mul_self_nonneg y) (sub_nonneg.2 hd),
          mul_nonneg (le_of_lt hBpos) (sub_nonneg.2 hd)]

theorem norm2_nonneg (a : List ℝ) : 0 ≤ norm2 a := Real.sqrt_nonneg _

theorem abs_dot_le (a b : List ℝ) : |dot a b| ≤ norm2 a * norm2 b := by
  have h1 : |dot a b| = Real.sqrt (dot a b ^ 2) := (Real.sqrt_sq_eq_abs _).symm
  rw [h1, norm2, norm2, ← Real.sqrt_mul (dot_self_nonneg a)]
  exact Real.sqrt_le_sqrt (dot_sq_le a b)

/-- Claim C4: the distance function returns `1 - a.b/(|a||b|)`, a real number
in `[0, 2]`, and returns exactly `1` whenever either vector has zero norm. -/
theorem cosine_distance_formula_range_zero (a b : Emb) :
    (0 ≤ cosine_distance a b ∧ cosine_distance a b ≤ 2)
    ∧ (norm2 a * norm2 b ≠ 0 →
        cosine_distance a b = 1 - dot a b / (norm2 a * norm2 b))
    ∧ ((norm2 a = 0 ∨ norm2 b = 0) → cosine_distance a b = 1) := by
  by_cases h : norm2 a * norm2 b = 0
  · refine ⟨⟨?_, ?_⟩, fun hn => absurd h hn, fun _ => ?_⟩ <;>
      simp [cosine_distance, h]
  · have hn0 : 0 ≤ norm2 a * norm2 b := mul_nonneg (norm2_nonneg a) (norm2_nonneg b)
    have hpos : 0 < norm2 a * norm2 b := lt_of_le_of_ne hn0 (Ne.symm h)
    have habs := abs_dot_le a b
    have hub : dot a b / (norm2 a * norm2 b) ≤ 1 :=
      (div_le_one hpos).2 (le_of_abs_le habs)
    have hlb : -1 ≤ dot a b / (norm2 a * norm2 b) := by
      rw [le_div_iff₀ hpos]
      nlinarith [abs_le.1 habs]
    refine ⟨⟨?_, ?_⟩, fun _ => ?_, fun hz => ?_⟩
    · rw [cosine_distance, if_neg h]; linarith
    · rw [cosine_distance, if_neg h]; linarith
    · rw [cosine_distance, if_neg h]
    · exfalso
      rcases hz with hz | hz <;> rw [hz] at h <;> simp at h

/-- Claim C4 witness: concrete instances of the three parts. -/
theorem cosine_distance_formula_range_zero_w :
    (0 ≤ cosine_distance [(1 : ℝ)] [1] ∧ cosine_distance [(1 : ℝ)] [1] ≤ 2)
    ∧ cosine_distance [(1 : ℝ)] [1]
        = 1 - dot [(1 : ℝ)] [1] / (norm2 [(1 : ℝ)] * norm2 [1])
    ∧ cosine_distance [(0 : ℝ)] [2] = 1 := by
  refine ⟨(cosine_distance_formula_range_zero [(1 : ℝ)] [1]).1,
    (cosine_distance_formula_range_zero [(1 : ℝ)] [1]).2.1 ?_,
    (cosine_distance_formula_range_zero [(0 : ℝ)] [2]).2.2 (Or.inl ?_)⟩
  · simp [norm2, dot]
  · simp [norm2, dot]

/-- Claim C6: cosine distance is symmetric, and the self-distance of any
non-zero vector is `0`. -/
theorem cosine_distance_symm_self (a b : Emb) :
    cosine_distance a b = cosine_distance b a
    ∧ ((∃ x ∈ a, x ≠ 0) → cosine_distance a a = 0) := by
  constructor
  · unfold cosine_distance
    rw [mul_comm (norm2 a) (norm2 b), dot_comm a b]
  · intro h
    have hpos := dot_self_pos a h
    have hsq : norm2 a * norm2 a = dot a a := Real.mul_self_sqrt (le_of_lt hpos)
    have hne : norm2 a * norm2 a ≠ 0 := by rw [hsq]; exact ne_of_gt hpos
    rw [cosine_distance, if_neg hne, hsq, div_self (ne_of_gt hpos), sub_self]

/-- Claim C6 witness: concrete instances of both parts. -/
theorem cosine_distance_symm_self_w :
    cosine_distance [(1 : ℝ), 2] [3, 4] = cosine_distance [(3 : ℝ), 4] [1, 2]
    ∧ cosine_distance [(1 : ℝ), 2] [1, 2] = 0 :=
  ⟨(cosine_distance_symm_self [(1 : ℝ), 2] [3, 4]).1,
    (cosine_distance_symm_self [(1 : ℝ), 2] [1, 2]).2 ⟨1, by simp, by norm_num⟩⟩

/-- Claim C8: the threshold table gives ArcFace 0.68, Facenet 0.40,
VGG-Face 0.40, and every other model name the default 0.40. -/
theorem get_threshold_table :
    get_threshold "ArcFace" = 68/100 ∧ get_threshold "Facenet" = 40/100
    ∧ get_threshold "VGG-Face" = 40/100
    ∧ ∀ m : String, m ≠ "ArcFace" → m ≠ "Facenet" → m ≠ "VGG-Face" →
        get_threshold m = 40/100 := by
  refine ⟨by simp [get_threshold, DISTANCE_THRESHOLDS, List.lookup], ?_, ?_, ?_⟩
  · simp [get_threshold, DISTANCE_THRESHOLDS, List.lookup]
  · simp [get_threshold, DISTANCE_THRESHOLDS, List.lookup]
  · intro m h1 h2 h3
    have e1 : (m == "ArcFace") = false := beq_eq_false_iff_ne.mpr h1
    have e2 : (m == "Facenet") = false := beq_eq_false_iff_ne.mpr h2
    have e3 : (m == "VGG-Face") = false := beq_eq_false_iff_ne.mpr h3
    simp [get_threshold, DISTANCE_THRESHOLDS, List.lookup, e1, e2, e3]

/-- Claim C8 witness: an unrecognized model name gets the default. -/
theorem get_threshold_table_w : get_threshold "Dlib" = 40/100 :=
  get_threshold_table.2.2.2 "Dlib" (by decide) (by decide) (by decide)

/-- Claim C10: `get_user_folder` joins the base directory with the
lowercased, stripped username; usernames with equal normal forms map to the
same folder. -/
theorem get_user_folder_normalizes (username base_dir : String) :
    get_user_folder username base_dir
      = base_dir ++ "/" ++ String.mk (strip_lower username.data)
    ∧ ∀ u2 : String, strip_lower username.data = strip_lower u2.data →
        get_user_folder username base_dir = get_user_folder u2 base_dir :=
  ⟨rfl, fun u2 h => by simp [get_user_folder, h]⟩

/-- Claim C10 witness: "  Alice " and "ALICE" share a reference folder. -/
theorem get_user_folder_normalizes_w :
    get_user_folder "  Alice " "users" = get_user_folder "ALICE" "users" :=
  (get_user_folder_normalizes "  Alice " "users").2 "ALICE" (by decide)

end FaceAuth

namespace FaceAuth

theorem lookup_mem {α β : Type} [BEq α] [LawfulBEq α] {k : α} {v : β} :
    ∀ {l : List (α × β)}, List.lookup k l = some v → (k, v) ∈ l
  | [], h => by simp [List.lookup] at h
  | (a, b) :: t, h => by
    by_cases hk : (k == a) = true
    · have hka : k = a := eq_of_beq hk
      rw [List.lookup, hk] at h
      subst hka
      obtain rfl : b = v := by injection h
      exact List.mem_cons_self _ _
    · rw [List.lookup, Bool.eq_false_iff.mpr hk] at h
      exact List.mem_cons_of_mem _ (lookup_mem h)

theorem dictEq_lookup {S C : List (String × ℚ)} (h : dictEq S C = true) (k : String) :
    List.lookup k S = List.lookup k C := by
  rw [dictEq, Bool.and_eq_true, List.all_eq_true, List.all_eq_true] at h
  obtain ⟨h1, h2⟩ := h
  cases hs : List.lookup k S with
  | some v =>
    have hm := lookup_mem hs
    have := h1 (k, v) hm
    have h3 : List.lookup k C = some v := by simpa using this
    exact h3.symm
  | none =>
    cases hc : List.lookup k C with
    | some w =>
      have hm := lookup_mem hc
      have := h2 (k, w) hm
      simp at this
      rw [this] at hs
      simp at hs
    | none => rfl

theorem dictEq_false_of_diff {S C : List (String × ℚ)} (k : String)
    (h : List.lookup k S ≠ List.lookup k C) : dictEq S C = false := by
  cases hd : dictEq S C
  · rfl
  · exact absurd (dictEq_lookup hd k) h

theorem load_disk_none (mem : MemCache) (disk : Option DiskBlob) (foPath model : String)
    (current : List (String × ℚ)) (ud : Bool)
    (hd : ∀ blob, disk = some blob →
      ((blob.model_name == model) && dictEq blob.mtimes current) = false
        ∨ blob.embeddings.isEmpty = true) :
    load_disk_cache mem disk foPath model current ud = (none, mem) := by
  cases ud with
  | false => rfl
  | true =>
    cases disk with
    | none => rfl
    | some blob =>
      rcases hd blob rfl with hg | he
      · simp [load_disk_cache, hg]
      · simp [load_disk_cache, he]

theorem load_none (mem : MemCache) (disk : Option DiskBlob) (fo : Folder)
    (model : String) (ud : Bool)
    (hmem : ∀ entry, List.lookup (fo.path, model) mem = some entry →
      dictEq entry.mtimes (folder_mtimes fo) = false ∨ entry.embeddings.isEmpty = true)
    (hd : ∀ blob, disk = some blob →
      ((blob.model_name == model) && dictEq blob.mtimes (folder_mtimes fo)) = false
        ∨ blob.embeddings.isEmpty = true) :
    load_cached_embeddings mem disk fo model ud = (none, mem) := by
  unfold load_cached_embeddings
  cases hc : (folder_mtimes fo).isEmpty with
  | true => simp [hc]
  | false =>
    simp only [hc, Bool.false_eq_true, if_false]
    cases hl : List.lookup (fo.path, model) mem with
    | none => exact load_disk_none mem disk fo.path model (folder_mtimes fo) ud hd
    | some entry =>
      rcases hmem entry hl with hq | he
      · simp only [hq, Bool.false_and, if_false]
        exact load_disk_none mem disk fo.path model (folder_mtimes fo) ud hd
      · simp only [he, Bool.not_true, Bool.and_false, if_false]
        exact load_disk_none mem disk fo.path model (folder_mtimes fo) ud hd

theorem load_hit (mem : MemCache) (disk : Option DiskBlob) (fo : Folder)
    (model : String) (ud : Bool) (entry : CacheEntry)
    (hcur : (folder_mtimes fo).isEmpty = false)
    (hmem : List.lookup (fo.path, model) mem = some entry)
    (hq : dictEq entry.mtimes (folder_mtimes fo) = true)
    (hne : entry.embeddings.isEmpty = false) :
    load_cached_embeddings mem disk fo model ud = (some entry.embeddings, mem) := by
  unfold load_cached_embeddings
  simp [hcur, hmem, hq, hne]

theorem get_ref_hit (oracle : Oracle) (mem : MemCache) (disk : Option DiskBlob)
    (fo : Folder) (model : String) (backends : List String) (entry : CacheEntry)
    (hcur : (folder_mtimes fo).isEmpty = false)
    (hmem : List.lookup (fo.path, model) mem = some entry)
    (hq : dictEq entry.mtimes (folder_mtimes fo) = true)
    (hne : entry.embeddings.isEmpty = false) :
    get_ref_embeddings oracle mem disk fo (some model) backends true
      = (entry.embeddings, mem, disk, []) := by
  have h := load_hit mem disk fo model true entry hcur hmem hq hne
  simp [get_ref_embeddings, h]

theorem get_ref_rebuild (oracle : Oracle) (mem : MemCache) (disk : Option DiskBlob)
    (fo : Folder) (model : String) (backends : List String) (ud : Bool)
    (hload : load_cached_embeddings mem disk fo model ud = (none, mem)) :
    get_ref_embeddings oracle mem disk fo (some model) backends ud
      = ((build_ref_embeddings oracle fo model backends).1,
        ((fo.path, model),
          CacheEntry.mk (build_ref_embeddings oracle fo model backends).1 (folder_mtimes fo)) :: mem,
        (if ud && !(build_ref_embeddings oracle fo model backends).1.isEmpty then
          some (DiskBlob.mk model (folder_mtimes fo)
            (build_ref_embeddings oracle fo model backends).1)
        else disk),
        (build_ref_embeddings oracle fo model backends).2) := by
  simp [get_ref_embeddings, hload, save_cached_embeddings]

theorem build_one_calls_head (oracle : Oracle) (model img b0 : String) (bs : List String) :
    ∃ t, (build_one oracle model img (b0 :: bs)).2 = (img, b0) :: t := by
  unfold build_one
  cases oracle img model b0 true true with
  | ok embs => exact ⟨[], rfl⟩
  | err m => exact ⟨(build_one oracle model img bs).2, rfl⟩

theorem build_cover (oracle : Oracle) (fo : Folder) (model b0 : String) (bs : List String) :
    ∀ l : List FileEntry, ∀ p ∈ l,
      ∃ bk, (fullPath fo p, bk) ∈ (build_ref_list oracle fo model (b0 :: bs) l).2
  | [], p, hp => absurd hp (List.not_mem_nil p)
  | q :: qs, p, hp => by
    rcases List.mem_cons.1 hp with rfl | hmem
    · obtain ⟨t, ht⟩ := build_one_calls_head oracle model (fullPath fo p) b0 bs
      refine ⟨b0, ?_⟩
      simp only [build_ref_list, List.mem_append]
      exact Or.inl (by rw [ht]; exact List.mem_cons_self _ _)
    · obtain ⟨bk, hbk⟩ := build_cover oracle fo model b0 bs qs p hmem
      refine ⟨bk, ?_⟩
      simp only [build_ref_list, List.mem_append]
      exact Or.inr hbk

end FaceAuth

namespace FaceAuth

def sampleFolder : Folder := Folder.mk "users/alice" true [FileEntry.mk "a.jpg" ".jpg" 5]

def sampleOracle : Oracle := fun _ _ _ _ _ => XResult.ok [[1]]

def emptyEntry : CacheEntry := CacheEntry.mk [] [("users/alice/a.jpg", 5)]

def memEmptyEntry : MemCache := [(("users/alice", "ArcFace"), emptyEntry)]

def fullEntry : CacheEntry :=
  CacheEntry.mk [([(2 : ℝ)], "users/alice/a.jpg")] [("users/alice/a.jpg", 5)]

def memFullEntry : MemCache := [(("users/alice", "ArcFace"), fullEntry)]

def staleEntry : CacheEntry :=
  CacheEntry.mk [([(2 : ℝ)], "users/alice/a.jpg")] [("users/alice/a.jpg", 4)]

def memStale : MemCache := [(("users/alice", "ArcFace"), staleEntry)]

/-- Claim C2 (amended). -/
theorem get_ref_snapshot_validity
    (oracle : Oracle) (mem : MemCache) (disk : Option DiskBlob) (fo : Folder)
    (model : String) (backends : List String) (entry : CacheEntry)
    (hmem : List.lookup (fo.path, model) mem = some entry) :
    ((folder_mtimes fo).isEmpty = false →
      dictEq entry.mtimes (folder_mtimes fo) = true →
      entry.embeddings.isEmpty = false →
      get_ref_embeddings oracle mem disk fo (some model) backends true
        = (entry.embeddings, mem, disk, []))
    ∧ (∀ k : String,
      List.lookup k entry.mtimes ≠ List.lookup k (folder_mtimes fo) →
      (∀ blob, disk = some blob →
        List.lookup k blob.mtimes ≠ List.lookup k (folder_mtimes fo)) →
      (get_ref_embeddings oracle mem disk fo (some model) backends true).1
          = (build_ref_embeddings oracle fo model backends).1
        ∧ (get_ref_embeddings oracle mem disk fo (some model) backends true).2.2.2
          = (build_ref_embeddings oracle fo model backends).2
        ∧ ∀ b0 bs, backends = b0 :: bs → ∀ p ∈ get_reference_image_paths fo,
            ∃ bk, (fullPath fo p, bk)
              ∈ (get_ref_embeddings oracle mem disk fo (some model) backends true).2.2.2) := by
  constructor
  · intro hcur hq hne
    exact get_ref_hit oracle mem disk fo model backends entry hcur hmem hq hne
  · intro k hk hdisk
    have hqf : dictEq entry.mtimes (folder_mtimes fo) = false := dictEq_false_of_diff k hk
    have hload : load_cached_embeddings mem disk fo model true = (none, mem) := by
      refine load_none mem disk fo model true ?_ ?_
      · intro e he
        have : e = entry := by
          rw [hmem] at he
          exact (Option.some.inj he).symm
        subst this
        exact Or.inl hqf
      · intro blob hb
        have := dictEq_false_of_diff k (hdisk blob hb)
        exact Or.inl (by rw [this, Bool.and_false])
    have hrw := get_ref_rebuild oracle mem disk fo model backends true hload
    rw [hrw]
    refine ⟨rfl, rfl, ?_⟩
    intro b0 bs hb p hp
    rw [hb]
    exact build_cover oracle fo model b0 bs (get_reference_image_paths fo) p hp

/-- Claim C2 counterexample. -/
theorem get_ref_snapshot_validity_cx :
    List.lookup ("users/alice", "ArcFace") memEmptyEntry = some emptyEntry
    ∧ dictEq emptyEntry.mtimes (folder_mtimes sampleFolder) = true
    ∧ (get_ref_embeddings sampleOracle memEmptyEntry none sampleFolder (some "ArcFace")
        DETECTOR_BACKENDS true).2.2.2 ≠ [] := by
  refine ⟨rfl, by decide, ?_⟩
  have h : (get_ref_embeddings sampleOracle memEmptyEntry none sampleFolder (some "ArcFace")
      DETECTOR_BACKENDS true).2.2.2 = [("users/alice/a.jpg", "retinaface")] := rfl
  rw [h]
  simp

/-- Claim C2 witness. -/
theorem get_ref_snapshot_validity_w :
    (get_ref_embeddings sampleOracle memFullEntry none sampleFolder (some "ArcFace")
        DETECTOR_BACKENDS true
      = (fullEntry.embeddings, memFullEntry, none, []))
    ∧ (get_ref_embeddings sampleOracle memStale none sampleFolder (some "ArcFace")
        DETECTOR_BACKENDS true).2.2.2
      = (build_ref_embeddings sampleOracle sampleFolder "ArcFace" DETECTOR_BACKENDS).2 := by
  constructor
  · exact (get_ref_snapshot_validity sampleOracle memFullEntry none sampleFolder "ArcFace"
      DETECTOR_BACKENDS fullEntry rfl).1 (by decide) (by decide) rfl
  · exact ((get_ref_snapshot_validity sampleOracle memStale none sampleFolder "ArcFace"
      DETECTOR_BACKENDS staleEntry rfl).2 "users/alice/a.jpg" (by decide)
      (fun blob h => nomatch h)).2.1

/-- Claim C9. -/
theorem get_ref_empty_entry_rebuild
    (oracle : Oracle) (mem : MemCache) (disk : Option DiskBlob) (fo : Folder)
    (model : String) (backends : List String) (entry : CacheEntry)
    (hmem : List.lookup (fo.path, model) mem = some entry)
    (hempty : entry.embeddings.isEmpty = true)
    (hdisk : disk = none ∨ ∃ blob, disk = some blob ∧ blob.embeddings.isEmpty = true) :
    (get_ref_embeddings oracle mem disk fo (some model) backends true).1
        = (build_ref_embeddings oracle fo model backends).1
      ∧ (get_ref_embeddings oracle mem disk fo (some model) backends true).2.2.2
        = (build_ref_embeddings oracle fo model backends).2
      ∧ ∀ b0 bs, backends = b0 :: bs → ∀ p ∈ get_reference_image_paths fo,
          ∃ bk, (fullPath fo p, bk)
            ∈ (get_ref_embeddings oracle mem disk fo (some model) backends true).2.2.2 := by
  have hload : load_cached_embeddings mem disk fo model true = (none, mem) := by
    refine load_none mem disk fo model true ?_ ?_
    · intro e he
      have : e = entry := by
        rw [hmem] at he
        exact (Option.some.inj he).symm
      subst this
      exact Or.inr hempty
    · intro blob hb
      rcases hdisk with rfl | ⟨blob2, hb2, he2⟩
      · exact absurd hb (by simp)
      · rw [hb2] at hb
        obtain rfl : blob2 = blob := Option.some.inj hb
        exact Or.inr he2
  have hrw := get_ref_rebuild oracle mem disk fo model backends true hload
  rw [hrw]
  refine ⟨rfl, rfl, ?_⟩
  intro b0 bs hb p hp
  rw [hb]
  exact build_cover oracle fo model b0 bs (get_reference_image_paths fo) p hp

/-- Claim C9 witness. -/
theorem get_ref_empty_entry_rebuild_w :
    (get_ref_embeddings sampleOracle memEmptyEntry none sampleFolder (some "ArcFace")
        DETECTOR_BACKENDS true).1
      = (build_ref_embeddings sampleOracle sampleFolder "ArcFace" DETECTOR_BACKENDS).1 :=
  (get_ref_empty_entry_rebuild sampleOracle memEmptyEntry none sampleFolder "ArcFace"
    DETECTOR_BACKENDS emptyEntry rfl rfl (Or.inl rfl)).1

theorem build_one_all_err (oracle : Oracle) (model img : String) :
    ∀ backends : List String,
      (∀ bk ∈ backends, ∃ m, oracle img model bk true true = XResult.err m) →
      (build_one oracle model img backends).1 = []
  | [], _ => rfl
  | b :: bs, h => by
    obtain ⟨m, hm⟩ := h b (List.mem_cons_self _ _)
    have ih := build_one_all_err oracle model img bs
      (fun bk hbk => h bk (List.mem_cons_of_mem _ hbk))
    simp [build_one, hm, ih]

/-- Claim C7. -/
theorem build_backend_fallback (oracle : Oracle) (model : String)
    (hok : ∀ img bk embs, oracle img model bk true true = XResult.ok embs → embs ≠ []) :
    (∀ img b bs embs, oracle img model b true true = XResult.ok embs →
      build_one oracle model img (b :: bs) = (embs, [(img, b)]) ∧ embs ≠ [])
    ∧ (∀ img b bs m, oracle img model b true true = XResult.err m →
      build_one oracle model img (b :: bs)
        = ((build_one oracle model img bs).1, (img, b) :: (build_one oracle model img bs).2))
    ∧ (∀ fo backends p ps,
      (∀ bk ∈ backends, ∃ m, oracle (fullPath fo p) model bk true true = XResult.err m) →
      (build_ref_list oracle fo model backends (p :: ps)).1
        = (build_ref_list oracle fo model backends ps).1) := by
  refine ⟨?_, ?_, ?_⟩
  · intro img b bs embs h
    exact ⟨by simp [build_one, h], hok img b embs h⟩
  · intro img b bs m h
    simp [build_one, h]
  · intro fo backends p ps h
    have h1 := build_one_all_err oracle model (fullPath fo p) backends h
    simp [build_ref_list, h1]

def failOracle : Oracle := fun _ _ bk _ _ =>
  if bk == "opencv" then XResult.ok [[1]] else XResult.err "backend crashed"

/-- Claim C7 witness. -/
theorem build_backend_fallback_w :
    (build_one failOracle "ArcFace" "img.jpg" ["opencv", "mtcnn"]
        = ([[1]], [("img.jpg", "opencv")]) ∧ ([[(1 : ℝ)]] : List Emb) ≠ [])
    ∧ build_one failOracle "ArcFace" "img.jpg" ["retinaface", "opencv"]
        = ((build_one failOracle "ArcFace" "img.jpg" ["opencv"]).1,
          ("img.jpg", "retinaface") :: (build_one failOracle "ArcFace" "img.jpg" ["opencv"]).2)
    ∧ (build_ref_list failOracle sampleFolder "ArcFace" ["retinaface", "mtcnn"]
        [FileEntry.mk "a.jpg" ".jpg" 5]).1
      = (build_ref_list failOracle sampleFolder "ArcFace" ["retinaface", "mtcnn"] []).1 := by
  have hok : ∀ img bk embs, failOracle img "ArcFace" bk true true = XResult.ok embs →
      embs ≠ [] := by
    intro img bk embs h
    by_cases hb : (bk == "opencv") = true
    · simp [failOracle, hb] at h
      rw [← h]
      simp
    · simp [failOracle, hb] at h
  refine ⟨(build_backend_fallback failOracle "ArcFace" hok).1 "img.jpg" "opencv" ["mtcnn"] [[1]] rfl,
    (build_backend_fallback failOracle "ArcFace" hok).2.1 "img.jpg" "retinaface" ["opencv"]
      "backend crashed" rfl,
    (build_backend_fallback failOracle "ArcFace" hok).2.2 sampleFolder ["retinaface", "mtcnn"]
      (FileEntry.mk "a.jpg" ".jpg" 5) [] ?_⟩
  intro bk hbk
  rcases List.mem_cons.1 hbk with rfl | hbk2
  · exact ⟨"backend crashed", rfl⟩
  · rcases List.mem_cons.1 hbk2 with rfl | hbk3
    · exact ⟨"backend crashed", rfl⟩
    · exact absurd hbk3 (List.not_mem_nil _)

end FaceAuth

namespace FaceAuth

theorem isEmpty_false {α : Type} {l : List α} (h : l ≠ []) : l.isEmpty = false := by
  cases l with
  | nil => exact absurd rfl h
  | cons x xs => rfl

theorem verify_not_found (oracle : Oracle) (fileExists : String → Bool) (mem : MemCache)
    (disk : Option DiskBlob) (image_path : String) (fo : Folder) (model_name : Option String)
    (backends : List String) (enf al uc : Bool)
    (h1 : fileExists image_path = false) :
    verify_image_file oracle fileExists mem disk image_path fo model_name backends enf al uc
      = ((false, Msg.fixed "Image file not found."), mem, disk, []) := by
  simp [verify_image_file, h1]

theorem verify_no_paths (oracle : Oracle) (fileExists : String → Bool) (mem : MemCache)
    (disk : Option DiskBlob) (image_path : String) (fo : Folder) (model_name : Option String)
    (backends : List String) (enf al uc : Bool)
    (h1 : fileExists image_path = true)
    (h2 : get_reference_image_paths fo = []) :
    verify_image_file oracle fileExists mem disk image_path fo model_name backends enf al uc
      = ((false, Msg.fixed noRefsText), mem, disk, []) := by
  simp [verify_image_file, h1, h2]

theorem verify_main_reduce (oracle : Oracle) (fileExists : String → Bool) (mem : MemCache)
    (disk : Option DiskBlob) (image_path : String) (fo : Folder) (model_name : Option String)
    (backends : List String) (enf al uc : Bool)
    (h1 : fileExists image_path = true)
    (h2 : get_reference_image_paths fo ≠ [])
    (hre : (ref_source oracle mem disk fo (model_name.getD VERIFICATION_MODEL) backends uc).1 ≠ []) :
    verify_image_file oracle fileExists mem disk image_path fo model_name backends enf al uc
      = (match probe_loop oracle image_path (model_name.getD VERIFICATION_MODEL) al enf backends with
        | .found e =>
          (scan e ((get_threshold (model_name.getD VERIFICATION_MODEL) : ℚ) : ℝ)
            (ref_source oracle mem disk fo (model_name.getD VERIFICATION_MODEL) backends uc).1,
          (ref_source oracle mem disk fo (model_name.getD VERIFICATION_MODEL) backends uc).2.1,
          (ref_source oracle mem disk fo (model_name.getD VERIFICATION_MODEL) backends uc).2.2.1,
          (ref_source oracle mem disk fo (model_name.getD VERIFICATION_MODEL) backends uc).2.2.2)
        | _ =>
          ((false, Msg.fixed noFaceText),
          (ref_source oracle mem disk fo (model_name.getD VERIFICATION_MODEL) backends uc).2.1,
          (ref_source oracle mem disk fo (model_name.getD VERIFICATION_MODEL) backends uc).2.2.1,
          (ref_source oracle mem disk fo (model_name.getD VERIFICATION_MODEL) backends uc).2.2.2)) := by
  rw [verify_image_file]
  simp only [h1, Bool.true_eq_false, if_false, h2, if_neg h2, isEmpty_false hre,
    Bool.false_eq_true]

theorem verify_no_refs (oracle : Oracle) (fileExists : String → Bool) (mem : MemCache)
    (disk : Option DiskBlob) (image_path : String) (fo : Folder) (model_name : Option String)
    (backends : List String) (enf al uc : Bool)
    (h1 : fileExists image_path = true)
    (h2 : get_reference_image_paths fo ≠ [])
    (hre : (ref_source oracle mem disk fo (model_name.getD VERIFICATION_MODEL) backends uc).1 = []) :
    (verify_image_file oracle fileExists mem disk image_path fo model_name backends enf al uc).1
      = (false, Msg.fixed noRefsText) := by
  rw [verify_image_file]
  simp only [h1, Bool.true_eq_false, if_false, if_neg h2, hre, List.isEmpty_nil]
  simp

end FaceAuth

namespace FaceAuth

theorem scan_first_match (live : Emb) (t : ℝ) :
    ∀ pre : List (Emb × String), ∀ (r : Emb) (s : String) (rest : List (Emb × String)),
      (∀ q ∈ pre, ¬ (cosine_distance live q.1 ≤ t)) →
      cosine_distance live r ≤ t →
      scan live t (pre ++ (r, s) :: rest) = (true, Msg.verified (cosine_distance live r))
  | [], r, s, rest, _, hr => by
    simp [scan, hr]
  | q :: qs, r, s, rest, hpre, hr => by
    have hq := hpre q (List.mem_cons_self _ _)
    rw [List.cons_append, scan, if_neg hq]
    exact scan_first_match live t qs r s rest
      (fun p hp => hpre p (List.mem_cons_of_mem _ hp)) hr

theorem scan_no_match (live : Emb) (t : ℝ) :
    ∀ l : List (Emb × String), (∀ q ∈ l, ¬ (cosine_distance live q.1 ≤ t)) →
      scan live t l = (false, Msg.fixed "Face does not match the registered user.")
  | [], _ => rfl
  | q :: qs, h => by
    rw [scan, if_neg (h q (List.mem_cons_self _ _))]
    exact scan_no_match live t qs (fun p hp => h p (List.mem_cons_of_mem _ hp))

/-- Claim C1. -/
theorem verify_first_accepted (oracle : Oracle) (fileExists : String → Bool) (mem : MemCache)
    (disk : Option DiskBlob) (image_path : String) (fo : Folder) (model_name : Option String)
    (backends : List String) (enf al uc : Bool) (e : Emb)
    (hfe : fileExists image_path = true)
    (hpaths : get_reference_image_paths fo ≠ [])
    (hprobe : probe_loop oracle image_path (model_name.getD VERIFICATION_MODEL) al enf backends
      = ProbeOutcome.found e)
    (hrefs : (ref_source oracle mem disk fo (model_name.getD VERIFICATION_MODEL) backends uc).1
      ≠ []) :
    (verify_image_file oracle fileExists mem disk image_path fo model_name backends enf al uc).1
      = scan e ((get_threshold (model_name.getD VERIFICATION_MODEL) : ℚ) : ℝ)
          (ref_source oracle mem disk fo (model_name.getD VERIFICATION_MODEL) backends uc).1
    ∧ (∀ (live : Emb) (t : ℝ) (pre : List (Emb × String)) (r : Emb) (s : String)
        (rest : List (Emb × String)),
        (∀ q ∈ pre, ¬ (cosine_distance live q.1 ≤ t)) →
        cosine_distance live r ≤ t →
        scan live t (pre ++ (r, s) :: rest) = (true, Msg.verified (cosine_distance live r)))
    ∧ (∀ (live : Emb) (t : ℝ) (l : List (Emb × String)),
        (∀ q ∈ l, ¬ (cosine_distance live q.1 ≤ t)) →
        scan live t l = (false, Msg.fixed "Face does not match the registered user."))
    ∧ (∀ (b : String) (bs : List String) (e2 : Emb) (es : List Emb),
        oracle image_path (model_name.getD VERIFICATION_MODEL) b al enf
          = XResult.ok (e2 :: es) →
        probe_loop oracle image_path (model_name.getD VERIFICATION_MODEL) al enf (b :: bs)
          = ProbeOutcome.found e2) := by
  refine ⟨?_, scan_first_match, scan_no_match, ?_⟩
  · rw [verify_main_reduce oracle fileExists mem disk image_path fo model_name backends
      enf al uc hfe hpaths hrefs, hprobe]
  · intro b bs e2 es h
    simp [probe_loop, h]

/-- Claim C3. -/
theorem probe_noface_policy (oracle : Oracle) (fileExists : String → Bool) (mem : MemCache)
    (disk : Option DiskBlob) (image_path : String) (fo : Folder) (model_name : Option String)
    (backends : List String) (enf al uc : Bool) :
    (∀ (b : String) (bs : List String) (m : String),
      oracle image_path (model_name.getD VERIFICATION_MODEL) b al enf = XResult.err m →
      is_no_face_error m = true →
      probe_loop oracle image_path (model_name.getD VERIFICATION_MODEL) al enf (b :: bs)
        = ProbeOutcome.noFaceAbort)
    ∧ (∀ (b : String) (bs : List String) (m : String),
      oracle image_path (model_name.getD VERIFICATION_MODEL) b al enf = XResult.err m →
      is_no_face_error m = false →
      probe_loop oracle image_path (model_name.getD VERIFICATION_MODEL) al enf (b :: bs)
        = probe_loop oracle image_path (model_name.getD VERIFICATION_MODEL) al enf bs)
    ∧ (∀ (b : String) (bs : List String),
      oracle image_path (model_name.getD VERIFICATION_MODEL) b al enf = XResult.ok [] →
      probe_loop oracle image_path (model_name.getD VERIFICATION_MODEL) al enf (b :: bs)
        = probe_loop oracle image_path (model_name.getD VERIFICATION_MODEL) al enf bs)
    ∧ probe_loop oracle image_path (model_name.getD VERIFICATION_MODEL) al enf []
        = ProbeOutcome.exhausted
    ∧ (fileExists image_path = true → get_reference_image_paths fo ≠ [] →
      (ref_source oracle mem disk fo (model_name.getD VERIFICATION_MODEL) backends uc).1 ≠ [] →
      (probe_loop oracle image_path (model_name.getD VERIFICATION_MODEL) al enf backends
          = ProbeOutcome.noFaceAbort ∨
        probe_loop oracle image_path (model_name.getD VERIFICATION_MODEL) al enf backends
          = ProbeOutcome.exhausted) →
      (verify_image_file oracle fileExists mem disk image_path fo model_name backends
          enf al uc).1
        = (false, Msg.fixed noFaceText)) := by
  refine ⟨?_, ?_, ?_, rfl, ?_⟩
  · intro b bs m h hnf
    simp [probe_loop, h, hnf]
  · intro b bs m h hnf
    simp [probe_loop, h, hnf]
  · intro b bs h
    simp [probe_loop, h]
  · intro hfe hpaths hrefs hout
    rw [verify_main_reduce oracle fileExists mem disk image_path fo model_name backends
      enf al uc hfe hpaths hrefs]
    rcases hout with h | h <;> rw [h]

/-- Claim C5. -/
theorem verify_failfast (oracle : Oracle) (fileExists : String → Bool) (mem : MemCache)
    (disk : Option DiskBlob) (image_path : String) (fo : Folder) (model_name : Option String)
    (backends : List String) (enf al uc : Bool) :
    (fileExists image_path = false →
      verify_image_file oracle fileExists mem disk image_path fo model_name backends enf al uc
        = ((false, Msg.fixed "Image file not found."), mem, disk, []))
    ∧ (fileExists image_path = true → get_reference_image_paths fo = [] →
      verify_image_file oracle fileExists mem disk image_path fo model_name backends enf al uc
        = ((false, Msg.fixed noRefsText), mem, disk, []))
    ∧ (fileExists image_path = true → get_reference_image_paths fo ≠ [] →
      (ref_source oracle mem disk fo (model_name.getD VERIFICATION_MODEL) backends uc).1 = [] →
      (verify_image_file oracle fileExists mem disk image_path fo model_name backends
          enf al uc).1
        = (false, Msg.fixed noRefsText)) :=
  ⟨verify_not_found oracle fileExists mem disk image_path fo model_name backends enf al uc,
    verify_no_paths oracle fileExists mem disk image_path fo model_name backends enf al uc,
    verify_no_refs oracle fileExists mem disk image_path fo model_name backends enf al uc⟩

end FaceAuth

namespace FaceAuth

theorem cd_example : cosine_distance [(1 : ℝ), 0] [3, 4] = 2/5 := by
  have hd : dot [(1 : ℝ), 0] [3, 4] = 3 := by simp [dot]
  have haa : dot [(1 : ℝ), 0] [(1 : ℝ), 0] = 1 := by simp [dot]
  have hbb : dot [(3 : ℝ), 4] [(3 : ℝ), 4] = 25 := by simp [dot]; norm_num
  have hna : norm2 [(1 : ℝ), 0] = 1 := by rw [norm2, haa, Real.sqrt_one]
  have hnb : norm2 [(3 : ℝ), 4] = 5 := by
    rw [norm2, hbb, show (25 : ℝ) = 5 * 5 by norm_num,
      Real.sqrt_mul_self (by norm_num : (0 : ℝ) ≤ 5)]
  rw [cosine_distance, hna, hnb, hd, if_neg (by norm_num : ¬ ((1 : ℝ) * 5 = 0))]
  norm_num

def wOracle : Oracle := fun img _ _ _ _ =>
  if img == "probe.png" then XResult.ok [[(1 : ℝ), 0]] else XResult.ok [[(3 : ℝ), 4]]

/-- Claim C1 witness. -/
theorem verify_first_accepted_w :
    (verify_image_file wOracle (fun _ => true) [] none "probe.png" sampleFolder
        (some "Facenet") DETECTOR_BACKENDS true true false).1
      = (true, Msg.verified (cosine_distance [(1 : ℝ), 0] [3, 4])) := by
  have hrefs1 : (ref_source wOracle [] none sampleFolder
        ((some "Facenet").getD VERIFICATION_MODEL) DETECTOR_BACKENDS false).1
      = [([(3 : ℝ), 4], "users/alice/a.jpg")] := rfl
  have main := verify_first_accepted wOracle (fun _ => true) [] none "probe.png" sampleFolder
    (some "Facenet") DETECTOR_BACKENDS true true false [(1 : ℝ), 0] rfl (by decide) rfl
    (by rw [hrefs1]; simp)
  have hle : cosine_distance [(1 : ℝ), 0] [3, 4]
      ≤ ((get_threshold "Facenet" : ℚ) : ℝ) := by
    rw [cd_example, get_threshold_table.2.1]
    norm_num
  have hsc := main.2.1 [(1 : ℝ), 0] ((get_threshold "Facenet" : ℚ) : ℝ) []
    [(3 : ℝ), 4] "users/alice/a.jpg" [] (fun q hq => absurd hq (List.not_mem_nil q)) hle
  rw [main.1, hrefs1]
  simpa using hsc

def nfOracle : Oracle := fun _ _ bk _ _ =>
  if bk == "retinaface" then XResult.err "Face could not be detected in the image"
  else XResult.ok [[(1 : ℝ)]]

def boomOracle : Oracle := fun _ _ bk _ _ =>
  if bk == "retinaface" then XResult.err "model load failure" else XResult.ok [[(1 : ℝ)]]

def okEmptyOracle : Oracle := fun _ _ bk _ _ =>
  if bk == "retinaface" then XResult.ok [] else XResult.ok [[(1 : ℝ)]]

/-- Claim C3 witness. -/
theorem probe_noface_policy_w :
    probe_loop nfOracle "probe.png" "ArcFace" true true DETECTOR_BACKENDS
      = ProbeOutcome.noFaceAbort
    ∧ probe_loop boomOracle "probe.png" "ArcFace" true true ("retinaface" :: ["mtcnn"])
      = probe_loop boomOracle "probe.png" "ArcFace" true true ["mtcnn"]
    ∧ probe_loop okEmptyOracle "probe.png" "ArcFace" true true ("retinaface" :: ["mtcnn"])
      = probe_loop okEmptyOracle "probe.png" "ArcFace" true true ["mtcnn"]
    ∧ probe_loop nfOracle "probe.png" "ArcFace" true true [] = ProbeOutcome.exhausted
    ∧ (verify_image_file nfOracle (fun _ => true) [] none "probe.png" sampleFolder
        (some "ArcFace") DETECTOR_BACKENDS true true false).1
      = (false, Msg.fixed noFaceText) := by
  have hrefs1 : (ref_source nfOracle [] none sampleFolder
        ((some "ArcFace").getD VERIFICATION_MODEL) DETECTOR_BACKENDS false).1
      = [([(1 : ℝ)], "users/alice/a.jpg")] := rfl
  have C := probe_noface_policy nfOracle (fun _ => true) [] none "probe.png" sampleFolder
    (some "ArcFace") DETECTOR_BACKENDS true true false
  have D := probe_noface_policy boomOracle (fun _ => true) [] none "probe.png" sampleFolder
    (some "ArcFace") DETECTOR_BACKENDS true true false
  have E := probe_noface_policy okEmptyOracle (fun _ => true) [] none "probe.png" sampleFolder
    (some "ArcFace") DETECTOR_BACKENDS true true false
  refine ⟨C.1 "retinaface" ["mtcnn", "opencv"] "Face could not be detected in the image"
      rfl (by decide),
    D.2.1 "retinaface" ["mtcnn"] "model load failure" rfl (by decide),
    E.2.2.1 "retinaface" ["mtcnn"] rfl,
    C.2.2.2.1,
    C.2.2.2.2 rfl (by decide) (by rw [hrefs1]; simp) ?_⟩
  exact Or.inl (C.1 "retinaface" ["mtcnn", "opencv"]
    "Face could not be detected in the image" rfl (by decide))

def errOracle : Oracle := fun _ _ _ _ _ => XResult.err "boom"

def emptyFolder : Folder := Folder.mk "users/bob" true []

/-- Claim C5 witness. -/
theorem verify_failfast_w :
    verify_image_file sampleOracle (fun _ => false) [] none "probe.png" sampleFolder
        (some "ArcFace") DETECTOR_BACKENDS true true false
      = ((false, Msg.fixed "Image file not found."), [], none, [])
    ∧ verify_image_file sampleOracle (fun _ => true) [] none "probe.png" emptyFolder
        (some "ArcFace") DETECTOR_BACKENDS true true false
      = ((false, Msg.fixed noRefsText), [], none, [])
    ∧ (verify_image_file errOracle (fun _ => true) [] none "probe.png" sampleFolder
        (some "ArcFace") DETECTOR_BACKENDS true true false).1
      = (false, Msg.fixed noRefsText) :=
  ⟨(verify_failfast sampleOracle (fun _ => false) [] none "probe.png" sampleFolder
      (some "ArcFace") DETECTOR_BACKENDS true true false).1 rfl,
    (verify_failfast sampleOracle (fun _ => true) [] none "probe.png" emptyFolder
      (some "ArcFace") DETECTOR_BACKENDS true true false).2.1 rfl rfl,
    (verify_failfast errOracle (fun _ => true) [] none "probe.png" sampleFolder
      (some "ArcFace") DETECTOR_BACKENDS true true false).2.2 rfl (by decide) rfl⟩

end FaceAuth
